import Mathlib

/-!
Verification of the lseed orchestrator (`src/lseed.go`).

The repository's single source file is the `main` package of the lseed DNS
seed: flag configuration, the two chain pollers (a gRPC-backed one and an
HTTP-backed one for the pkt chain), and startup wiring of chain views into
the DNS server.  The `seed` package (NetworkView, DnsServer) is not part of
the source tree here; where a claim needs its behaviour, the definitions
below are modelled from the spec and say so in their doc comments.

Effectful Go code is embedded by passing the outcomes of external calls
(gRPC fetches, HTTP requests, file reads) explicitly as inputs, and by
modelling a Go `panic` as a distinguished outcome (`Option`/a dedicated
constructor) rather than a returned error.
-/

namespace Lseed

/-- A node of the channel graph as returned by a graph fetch
(`lnrpc.LightningNode`): an identity key and its list of addresses.  Only
the identity and the emptiness/content of the address list matter to the
orchestrator, so addresses are kept opaque as strings. -/
structure LightningNode where
  pubKey : String
  addresses : List String
deriving DecidableEq, Repr

/-- Modelled from the spec: the `seed` package's NetworkView (not under
`src/`), a per-chain registry mapping identity to peer record
(`chain_name` label plus `registry`). -/
structure NetworkView where
  chainName : String
  registry : List (String × LightningNode)
deriving DecidableEq, Repr

/-- Modelled from the spec: `NewNetworkView(name)` creates a fresh, empty
registry for one chain. -/
def newNetworkView (name : String) : NetworkView :=
  ⟨name, []⟩

/-- Modelled from the spec: wholesale replacement of the entry keyed by the
node's identity (upsert); insertion at the end when the identity is new. -/
def upsertEntry : List (String × LightningNode) → LightningNode → List (String × LightningNode)
  | [], n => [(n.pubKey, n)]
  | (k, r) :: rest, n =>
      if k = n.pubKey then (k, n) :: rest else (k, r) :: upsertEntry rest n

/-- Modelled from the spec: `NetworkView.AddNode` — upsert of one record,
returning the updated view; per the spec it never fails on well-formed
input, and the Bool reports whether the identity was new. -/
def addNode (v : NetworkView) (n : LightningNode) : NetworkView × Bool :=
  (⟨v.chainName, upsertEntry v.registry n⟩,
   v.registry.all (fun p => p.1 != n.pubKey))

/-- Outcome of one graph fetch, as both pollers consume it: an error or a
list of graph nodes. -/
inductive FetchResult where
  | fail (e : String)
  | ok (nodes : List LightningNode)
deriving DecidableEq, Repr

/-- The ingestion loop shared verbatim by both pollers
(`src/lseed.go:174-184` and `src/lseed.go:208-218`):
`for _, node := range graph.Nodes { if len(node.Addresses) == 0 { continue };
nview.AddNode(node) }`.  Returns the updated view together with the trace of
`AddNode` invocations, in order. -/
def scrapeLoop (v : NetworkView) : List LightningNode → NetworkView × List LightningNode
  | [] => (v, [])
  | node :: rest =>
      if node.addresses.length = 0 then scrapeLoop v rest
      else
        let v2 := (addNode v node).1
        let r := scrapeLoop v2 rest
        (r.1, node :: r.2)

/-- Result of one poll tick: the view afterwards, the `AddNode` calls made,
and the messages sent to the error-level observability sink (`log.Errorf`). -/
structure TickTrace where
  view : NetworkView
  upserts : List LightningNode
  errorLogs : List String
deriving DecidableEq, Repr

/-- The gRPC poller's `scrapeGraph` body after the `DescribeGraph` call
(`src/lseed.go:198-219`): on error it returns at once — no log call, no
write; on success it runs the ingestion loop. -/
def grpcScrapeGraph (v : NetworkView) (r : FetchResult) : TickTrace :=
  match r with
  | .fail _ => ⟨v, [], []⟩
  | .ok nodes =>
      let r := scrapeLoop v nodes
      ⟨r.1, r.2, []⟩

/-- The pkt poller's `scrapeGraph` body after the `pktGetGraph` call
(`src/lseed.go:167-185`): on error it logs via `log.Errorf` and returns; on
success it runs the ingestion loop. -/
def pktScrapeGraph (v : NetworkView) (r : FetchResult) : TickTrace :=
  match r with
  | .fail e => ⟨v, [], ["Error getting node graph: " ++ e]⟩
  | .ok nodes =>
      let r := scrapeLoop v nodes
      ⟨r.1, r.2, []⟩

/-- An HTTP response as far as the orchestrator looks at it. -/
structure HttpResponse where
  body : String
deriving DecidableEq, Repr

/-- Outcomes of the external calls made during one `pktGetGraph` invocation
(`src/lseed.go:145-164`):
`newRequestErr` is `http.NewRequest`'s error (when `some`, the returned
request is Go `nil`); `clientDo` is `client.Do`'s outcome; and
`unmarshalResult` is the outcome of `unmarshal`/`jsonpb.Unmarshal` on the
received body. -/
structure PktHttpEnv where
  newRequestErr : Option String
  clientDo : Except String HttpResponse
  unmarshalResult : Except String (List LightningNode)
deriving Repr

/-- What one `pktGetGraph` call can do: return an error, return a graph, or
panic (nil-pointer dereference). -/
inductive PktFetchOutcome where
  | panicked
  | errored (e : String)
  | graph (nodes : List LightningNode)
deriving DecidableEq, Repr

/-- Shallow embedding of `pktGetGraph` (`src/lseed.go:145-164`).  The source
calls `req.Header.Set` BEFORE checking `http.NewRequest`'s error; when
`NewRequest` fails it returns a nil request, so `req.Header.Set`
dereferences a nil pointer and the call panics — the `if err != nil` check
on the next line is never reached in that case. -/
def pktGetGraph (env : PktHttpEnv) : PktFetchOutcome :=
  match env.newRequestErr with
  | some _ => .panicked
  | none =>
      match env.clientDo with
      | .error e => .errored e
      | .ok _resp =>
          match env.unmarshalResult with
          | .error e => .errored e
          | .ok g => .graph g

/-- An `http.Client` as far as timeouts are concerned.  Go's zero value has
`Timeout` 0, meaning no timeout. -/
structure HttpClient where
  timeoutSeconds : Option Nat
deriving DecidableEq, Repr

/-- The client built by `pktGetGraph` (`src/lseed.go:146`):
`client := &http.Client\x7b\x7d` — the zero-valued client, so no request
timeout is configured. -/
def pktFetchClient : HttpClient :=
  ⟨none⟩

/-- A gRPC call context as far as deadlines are concerned. -/
structure GrpcContext where
  deadlineSeconds : Option Nat
deriving DecidableEq, Repr

/-- The context the gRPC poller passes to `DescribeGraph`
(`src/lseed.go:200-202`): `context.Background()`, which carries no
deadline. -/
def pollerFetchContext : GrpcContext :=
  ⟨none⟩

/-- The flag surface of the orchestrator (`src/lseed.go:30-56`), one field
per `flag.String`/`flag.Int`/`flag.Bool` variable. -/
structure Config where
  listenAddrUDP : String
  listenAddrTCP : String
  bitcoinNodeHost : String
  litecoinNodeHost : String
  testNodeHost : String
  pktNodeHost : String
  bitcoinTLSPath : String
  litecoinTLSPath : String
  testTLSPath : String
  bitcoinMacPath : String
  litecoinMacPath : String
  testMacPath : String
  rootDomain : String
  authoritativeIP : String
  pollInterval : Int
  debug : Bool
  numResults : Int
deriving DecidableEq, Repr

/-- The default values of every flag, as declared in `src/lseed.go:30-56`. -/
def defaultConfig : Config :=
  ⟨"0.0.0.0:53", "0.0.0.0:53", "", "", "", "", "", "", "", "", "", "",
   "nodes.lightning.directory", "127.0.0.1", 600, false, 25⟩

/-- The period of the ticker both pollers create
(`time.NewTicker(time.Second * time.Duration(*pollInterval))`,
`src/lseed.go:189` and `src/lseed.go:223`), in seconds. -/
def tickerIntervalSeconds (cfg : Config) : Int :=
  cfg.pollInterval

/-- The gRPC poller's loop (`src/lseed.go:197-227`) observed after the
startup scrape and `n` ticker ticks.  `fetch` gives the outcome of the
k-th `DescribeGraph` invocation; the result pairs the view with the number
of fetch invocations made so far.  The function is total in `n`: the loop
`for range ticker.C` has no exit. -/
def pollerTrace (fetch : Nat → FetchResult) (v : NetworkView) : Nat → NetworkView × Nat
  | 0 => ((grpcScrapeGraph v (fetch 0)).view, 1)
  | n + 1 =>
      let s := pollerTrace fetch v n
      ((grpcScrapeGraph s.1 (fetch s.2)).view, s.2 + 1)

/-- The pkt poller's loop (`src/lseed.go:166-193`) observed after the
startup scrape and `n` ticker ticks; `envs` gives the external-call
outcomes of the k-th `pktGetGraph` invocation.  `none` means the goroutine
panicked (which in Go brings the whole process down). -/
def pktPollerTrace (envs : Nat → PktHttpEnv) (v : NetworkView) : Nat → Option (NetworkView × Nat)
  | 0 =>
      match pktGetGraph (envs 0) with
      | .panicked => none
      | .errored e => some ((pktScrapeGraph v (.fail e)).view, 1)
      | .graph g => some ((pktScrapeGraph v (.ok g)).view, 1)
  | n + 1 =>
      match pktPollerTrace envs v n with
      | none => none
      | some s =>
          match pktGetGraph (envs s.2) with
          | .panicked => none
          | .errored e => some ((pktScrapeGraph s.1 (.fail e)).view, s.2 + 1)
          | .graph g => some ((pktScrapeGraph s.1 (.ok g)).view, s.2 + 1)

/-- Outcomes of the external world at process launch:
`btcInit`/`ltcInit`/`testInit` are the results of the three possible
`initLightningClient` calls (dial + credential load + initial `GetInfo`;
`.error` when any of those fails), `parsedRootIP` is the result of
`net.ParseIP(*authoritativeIP)` (Go stdlib, abstracted; `none` stands for
a nil result on an unparseable string), and `pktFirstFetch` holds the
external-call outcomes the pkt poller's startup fetch would see. -/
structure StartupEnv where
  btcInit : Except String Unit
  ltcInit : Except String Unit
  testInit : Except String Unit
  parsedRootIP : Option String
  pktFirstFetch : PktHttpEnv
deriving Repr

/-- The argument tuple of the `seed.NewDnsServer` call (`src/lseed.go:331-333`):
the chain-view map, both listen addresses, the root domain and the parsed
root IP — exactly the five arguments the source passes, nothing else. -/
structure DnsServerArgs where
  netViewMap : List (String × String)
  listenUDP : String
  listenTCP : String
  rootDomain : String
  rootIP : Option String
deriving DecidableEq, Repr

/-- What a successful `main` has set up by the time `dnsServer.Serve()` is
reached: the chain-view map (subdomain key ↦ chain name of the fresh
`NewNetworkView` stored there), the list of poller goroutines launched
(named by the chain whose view each feeds, in launch order), and the DNS
server's construction arguments. -/
structure Started where
  netViewMap : List (String × String)
  pollers : List String
  dnsArgs : DnsServerArgs
deriving DecidableEq, Repr

/-- Guard of the btc branch (`src/lseed.go:253`). -/
def btcConfigured (cfg : Config) : Bool :=
  cfg.bitcoinNodeHost != "" && cfg.bitcoinTLSPath != "" && cfg.bitcoinMacPath != ""

/-- Guard of the ltc branch (`src/lseed.go:275`). -/
def ltcConfigured (cfg : Config) : Bool :=
  cfg.litecoinNodeHost != "" && cfg.litecoinTLSPath != "" && cfg.litecoinMacPath != ""

/-- Guard of the testnet branch (`src/lseed.go:294`). -/
def testConfigured (cfg : Config) : Bool :=
  cfg.testNodeHost != "" && cfg.testTLSPath != "" && cfg.testMacPath != ""

/-- One gRPC chain block of `main`: when the guard holds, an
`initLightningClient` failure panics with the block's message; success
contributes one map entry and one poller; an unsatisfied guard contributes
nothing and consults nothing. -/
def grpcChainBlock (guard : Bool) (init : Except String Unit)
    (errMsg key chain : String) :
    Except String (List (String × String) × List String) :=
  if guard then
    match init with
    | .error e => .error (errMsg ++ e)
    | .ok _ => .ok ([(key, chain)], [chain])
  else .ok ([], [])

/-- Shallow embedding of `main` (`src/lseed.go:242-336`) up to the point
where `dnsServer.Serve()` is entered.  `.error` is a `panic` (process
terminates before serving); `.ok` is a process that starts serving.  The
three gRPC chain blocks run in source order; the pkt block
(`src/lseed.go:315-324`) installs its view and launches `pktPoller` with no
launch-time check of the backing source; then the emptiness check
(`src/lseed.go:326-328`), `net.ParseIP` and the `NewDnsServer` call. -/
def mainStartup (cfg : Config) (env : StartupEnv) : Except String Started :=
  match grpcChainBlock (btcConfigured cfg) env.btcInit
      "unable to connect to btc lnd: " "" "bitcoin" with
  | .error e => .error e
  | .ok btc =>
      match grpcChainBlock (ltcConfigured cfg) env.ltcInit
          "unable to connect to ltc lnd: " "ltc." "litecoin" with
      | .error e => .error e
      | .ok ltc =>
          match grpcChainBlock (testConfigured cfg) env.testInit
              "unable to connect to test lnd: " "test." "testnet" with
          | .error e => .error e
          | .ok tst =>
              let pkt : List (String × String) × List String :=
                if cfg.pktNodeHost != "" then ([("pkt.", "pkt")], ["pkt"]) else ([], [])
              let m := btc.1 ++ ltc.1 ++ tst.1 ++ pkt.1
              let p := btc.2 ++ ltc.2 ++ tst.2 ++ pkt.2
              if m.length = 0 then .error "must specify at least one node type"
              else
                .ok ⟨m, p,
                  ⟨m, cfg.listenAddrUDP, cfg.listenAddrTCP, cfg.rootDomain,
                   env.parsedRootIP⟩⟩

/-- The chain-view map `main` ends up with, as a pure function of the
configuration (entries in insertion order). -/
def chainEntries (cfg : Config) : List (String × String) :=
  (if btcConfigured cfg then [("", "bitcoin")] else []) ++
  (if ltcConfigured cfg then [("ltc.", "litecoin")] else []) ++
  (if testConfigured cfg then [("test.", "testnet")] else []) ++
  (if cfg.pktNodeHost != "" then [("pkt.", "pkt")] else [])

/-- `true` iff the startup outcome reaches `dnsServer.Serve()`. -/
def startupServes (r : Except String Started) : Bool :=
  match r with
  | .ok _ => true
  | .error _ => false

/-- Environment update: a different outcome for the pkt poller's first
fetch (the rest of the launch environment unchanged). -/
def setPktFirstFetch (env : StartupEnv) (f : PktHttpEnv) : StartupEnv :=
  ⟨env.btcInit, env.ltcInit, env.testInit, env.parsedRootIP, f⟩

/-- Environment update: a different `net.ParseIP` result. -/
def setParsedRootIP (env : StartupEnv) (ip : Option String) : StartupEnv :=
  ⟨env.btcInit, env.ltcInit, env.testInit, ip, env.pktFirstFetch⟩

/-- Environment update: a different btc `initLightningClient` outcome. -/
def setBtcInit (env : StartupEnv) (r : Except String Unit) : StartupEnv :=
  ⟨r, env.ltcInit, env.testInit, env.parsedRootIP, env.pktFirstFetch⟩

/-- Environment update: a different ltc `initLightningClient` outcome. -/
def setLtcInit (env : StartupEnv) (r : Except String Unit) : StartupEnv :=
  ⟨env.btcInit, r, env.testInit, env.parsedRootIP, env.pktFirstFetch⟩

/-- Environment update: a different testnet `initLightningClient` outcome. -/
def setTestInit (env : StartupEnv) (r : Except String Unit) : StartupEnv :=
  ⟨env.btcInit, env.ltcInit, r, env.parsedRootIP, env.pktFirstFetch⟩

/-- Configuration update: a different value of the `results` flag. -/
def setNumResults (cfg : Config) (n : Int) : Config :=
  ⟨cfg.listenAddrUDP, cfg.listenAddrTCP, cfg.bitcoinNodeHost,
   cfg.litecoinNodeHost, cfg.testNodeHost, cfg.pktNodeHost,
   cfg.bitcoinTLSPath, cfg.litecoinTLSPath, cfg.testTLSPath,
   cfg.bitcoinMacPath, cfg.litecoinMacPath, cfg.testMacPath,
   cfg.rootDomain, cfg.authoritativeIP, cfg.pollInterval, cfg.debug, n⟩

/-- The chains whose poller goroutines `main` launches, in launch order,
as a pure function of the configuration. -/
def chainPollers (cfg : Config) : List String :=
  (if btcConfigured cfg then ["bitcoin"] else []) ++
  (if ltcConfigured cfg then ["litecoin"] else []) ++
  (if testConfigured cfg then ["testnet"] else []) ++
  (if cfg.pktNodeHost != "" then ["pkt"] else [])

/-- The trace of `AddNode` calls made by the shared ingestion loop is the
input list filtered to the nodes with a non-empty address list, in order. -/
theorem scrapeLoop_trace (v : NetworkView) (ns : List LightningNode) :
    (scrapeLoop v ns).2 = ns.filter (fun n => !n.addresses.isEmpty) := by
  induction ns generalizing v with
  | nil => rfl
  | cons node rest ih =>
      cases ha : node.addresses with
      | nil => simp [scrapeLoop, ha, ih]
      | cons a as => simp [scrapeLoop, ha, ih]

/-- When `http.NewRequest` succeeds, `pktGetGraph` cannot panic: every
remaining path returns an error or a graph. -/
theorem pktGetGraph_ne_panicked (env : PktHttpEnv)
    (h : env.newRequestErr = none) :
    pktGetGraph env ≠ PktFetchOutcome.panicked := by
  obtain ⟨nr, cdo, um⟩ := env
  simp only at h
  subst h
  cases cdo with
  | error e => simp [pktGetGraph]
  | ok r =>
      cases um with
      | error e => simp [pktGetGraph]
      | ok g => simp [pktGetGraph]

/-- A chain block with an unsatisfied guard contributes nothing (and never
consults its init outcome). -/
theorem grpcChainBlock_false (init : Except String Unit) (errMsg key chain : String) :
    grpcChainBlock false init errMsg key chain = Except.ok ([], []) :=
  rfl

/-- Characterization of a successfully completed chain block. -/
theorem grpcChainBlock_ok_eq (guard : Bool) (init : Except String Unit)
    (errMsg key chain : String) (x : List (String × String) × List String)
    (h : grpcChainBlock guard init errMsg key chain = Except.ok x) :
    x.1 = (if guard then [(key, chain)] else []) ∧
    x.2 = (if guard then [chain] else []) := by
  cases guard with
  | false =>
      simp [grpcChainBlock] at h
      simp [← h]
  | true =>
      cases init with
      | error e => simp [grpcChainBlock] at h
      | ok u =>
          simp [grpcChainBlock] at h
          simp [← h]

/-- A successful startup is fully determined by the configuration and the
parsed root IP: the chain-view map is `chainEntries`, the launched pollers
are `chainPollers`, and the DNS server receives exactly the five arguments
of the `NewDnsServer` call site. -/
theorem mainStartup_ok_eq (cfg : Config) (env : StartupEnv) (s : Started)
    (h : mainStartup cfg env = Except.ok s) :
    s = ⟨chainEntries cfg, chainPollers cfg,
         ⟨chainEntries cfg, cfg.listenAddrUDP, cfg.listenAddrTCP,
          cfg.rootDomain, env.parsedRootIP⟩⟩ := by
  obtain ⟨bi, li, ti, ip, pf⟩ := env
  by_cases hb : btcConfigured cfg = true <;>
    by_cases hl : ltcConfigured cfg = true <;>
    by_cases ht : testConfigured cfg = true <;>
    by_cases hp : (cfg.pktNodeHost != "") = true <;>
    cases bi <;> cases li <;> cases ti <;>
    simp_all [mainStartup, grpcChainBlock, chainEntries, chainPollers]

/-- External-call outcomes for a pkt fetch whose request is built fine but
whose HTTP round-trip fails with the given error. -/
def pktFailingEnv (e : String) : PktHttpEnv :=
  ⟨none, Except.error e, Except.error ""⟩

/-- External-call outcomes for a pkt fetch on a host string that
`http.NewRequest` rejects: `*pkt-lnd-node` containing a newline makes
`url.Parse` fail with an invalid-control-character error, so `NewRequest`
returns a nil request together with that error. -/
def badHostFetchEnv : PktHttpEnv :=
  ⟨some "net/url: invalid control character in URL",
   Except.error "", Except.error ""⟩

/-- A constantly failing fetch stream leaves the gRPC poller's view
untouched forever while the tick count keeps advancing. -/
theorem pollerTrace_const_fail (v : NetworkView) (e : String) :
    ∀ n, pollerTrace (fun _ => FetchResult.fail e) v n = (v, n + 1) := by
  intro n
  induction n with
  | zero => rfl
  | succ n ih => simp [pollerTrace, ih, grpcScrapeGraph]

/-- A constantly failing fetch stream leaves the pkt poller's view
untouched forever while the tick count keeps advancing (and never
panics, since the request itself is built fine). -/
theorem pktPollerTrace_const_fail (v : NetworkView) (e : String) :
    ∀ n, pktPollerTrace (fun _ => pktFailingEnv e) v n = some (v, n + 1) := by
  intro n
  induction n with
  | zero => rfl
  | succ n ih =>
      have hpg : pktGetGraph (pktFailingEnv e) = PktFetchOutcome.errored e := rfl
      simp [pktPollerTrace, ih, hpg, pktScrapeGraph]

/-- The number of `DescribeGraph` invocations the gRPC poller has made
after `n` ticks is `n + 1` (one at startup, one per tick). -/
theorem pollerTrace_snd (fetch : Nat → FetchResult) (v : NetworkView) :
    ∀ n, (pollerTrace fetch v n).2 = n + 1 := by
  intro n
  induction n with
  | zero => rfl
  | succ n ih => simp [pollerTrace, ih]

/-- As long as `http.NewRequest` keeps succeeding, the pkt poller never
panics and has made `n + 1` fetches after `n` ticks. -/
theorem pktPollerTrace_count (envs : Nat → PktHttpEnv) (v : NetworkView)
    (h : ∀ i, (envs i).newRequestErr = none) :
    ∀ n, ∃ st, pktPollerTrace envs v n = some (st, n + 1) := by
  intro n
  induction n with
  | zero =>
      cases hpg : pktGetGraph (envs 0) with
      | panicked => exact absurd hpg (pktGetGraph_ne_panicked _ (h 0))
      | errored e =>
          exact ⟨(pktScrapeGraph v (FetchResult.fail e)).view,
            by simp [pktPollerTrace, hpg]⟩
      | graph g =>
          exact ⟨(pktScrapeGraph v (FetchResult.ok g)).view,
            by simp [pktPollerTrace, hpg]⟩
  | succ n ih =>
      obtain ⟨st, hst⟩ := ih
      cases hpg : pktGetGraph (envs (n + 1)) with
      | panicked => exact absurd hpg (pktGetGraph_ne_panicked _ (h (n + 1)))
      | errored e =>
          exact ⟨(pktScrapeGraph st (FetchResult.fail e)).view,
            by simp [pktPollerTrace, hst, hpg]⟩
      | graph g =>
          exact ⟨(pktScrapeGraph st (FetchResult.ok g)).view,
            by simp [pktPollerTrace, hst, hpg]⟩

/-- C1: the claim says `pktGetGraph` never panics for any host input and
fetch outcome; the code contradicts it. `req.Header.Set` runs before the
error check on `http.NewRequest` (`src/lseed.go:148-153`), so a host flag
that makes request construction fail — e.g. a `*pkt-lnd-node` value
containing a newline, which `url.Parse` rejects — leaves `req` nil and the
dereference panics, crashing the process.  This theorem evaluates the
embedded fetch at exactly that failing input. -/
theorem pktGetGraph_panics_on_bad_host :
    pktGetGraph badHostFetchEnv = PktFetchOutcome.panicked :=
  rfl

/-- C2 (amended): an ingestion failure skips the tick with the registry
unchanged for both pollers, and the next scheduled tick proceeds; the pkt
poller reports the error to the observability sink via `log.Errorf`, but
the gRPC poller returns silently without logging anything
(`src/lseed.go:203-205`). -/
theorem ingestion_failure_skips_tick (v : NetworkView) (e : String) (n : Nat) :
    grpcScrapeGraph v (FetchResult.fail e) = ⟨v, [], []⟩ ∧
    pktScrapeGraph v (FetchResult.fail e) = ⟨v, [], ["Error getting node graph: " ++ e]⟩ ∧
    pollerTrace (fun _ => FetchResult.fail e) v n = (v, n + 1) ∧
    pktPollerTrace (fun _ => pktFailingEnv e) v n = some (v, n + 1) :=
  ⟨rfl, rfl, pollerTrace_const_fail v e n, pktPollerTrace_const_fail v e n⟩

/-- C2 counterexample: the claim requires a fetch failure to be logged by
both pollers, but on a failed `DescribeGraph` the gRPC poller's tick emits
nothing to the observability sink — its error branch is a bare `return`
(`src/lseed.go:203-205`). -/
theorem grpc_failure_not_logged :
    (grpcScrapeGraph (newNetworkView "bitcoin")
        (FetchResult.fail "connection refused")).errorLogs = [] :=
  rfl

/-- C5: each poller fetches once immediately at startup and once per tick
of a ticker whose fixed period is the poll-interval flag (default 600
seconds): after `n` ticks exactly `n + 1` fetches have happened; both loop
bodies are total in the tick count (the `for range ticker.C` loop has no
exit), so there is no terminal state short of process exit — for the pkt
poller under the proviso that request construction keeps succeeding. -/
theorem poller_schedule :
    (∀ (fetch : Nat → FetchResult) (v : NetworkView) (n : Nat),
        (pollerTrace fetch v n).2 = n + 1) ∧
    (∀ cfg : Config, tickerIntervalSeconds cfg = cfg.pollInterval) ∧
    tickerIntervalSeconds defaultConfig = 600 ∧
    (∀ (envs : Nat → PktHttpEnv) (v : NetworkView) (n : Nat),
        (∀ i, (envs i).newRequestErr = none) →
        Option.map (fun s => s.2) (pktPollerTrace envs v n) = some (n + 1)) := by
  refine ⟨pollerTrace_snd, fun _ => rfl, rfl, ?_⟩
  intro envs v n h
  obtain ⟨st, hst⟩ := pktPollerTrace_count envs v h n
  simp [hst]

/-- C5 witness: the pkt poller run against a host that always answers with
a connection error has made three fetches after two ticks. -/
theorem poller_schedule_witness :
    Option.map (fun s => s.2)
      (pktPollerTrace (fun _ => pktFailingEnv "connection refused")
        (newNetworkView "pkt") 2) = some 3 :=
  poller_schedule.2.2.2 (fun _ => pktFailingEnv "connection refused")
    (newNetworkView "pkt") 2 (fun _ => rfl)

/-- C6: on a successful fetch, both pollers call `AddNode` exactly for the
returned entries with a non-empty address list, in list order — entries
with zero addresses are skipped by the `continue` and never admitted. -/
theorem upserts_are_nonempty_filter (v : NetworkView) (nodes : List LightningNode) :
    (grpcScrapeGraph v (FetchResult.ok nodes)).upserts
        = nodes.filter (fun n => !n.addresses.isEmpty) ∧
    (pktScrapeGraph v (FetchResult.ok nodes)).upserts
        = nodes.filter (fun n => !n.addresses.isEmpty) := by
  constructor <;> simp [grpcScrapeGraph, pktScrapeGraph, scrapeLoop_trace]

/-- C7 (amended): no graph fetch is guarded by a timeout — the pkt fetch
uses a zero-valued `http.Client` (no `Timeout`) and the gRPC fetch runs
under `context.Background()` (no deadline); a fetch that fails is handled
as a failed tick, with the registry unchanged. -/
theorem no_fetch_timeout (v : NetworkView) (e : String) :
    pktFetchClient.timeoutSeconds = none ∧
    pollerFetchContext.deadlineSeconds = none ∧
    (grpcScrapeGraph v (FetchResult.fail e)).view = v ∧
    (pktScrapeGraph v (FetchResult.fail e)).view = v :=
  ⟨rfl, rfl, rfl, rfl⟩

/-- C7 counterexample: the claim says every fetch is guarded by a bounded
timeout, but neither transport configures one — `client := &http.Client\x7b\x7d`
has no timeout and `context.Background()` carries no deadline. -/
theorem no_timeout_configured :
    pktFetchClient.timeoutSeconds = none ∧
    pollerFetchContext.deadlineSeconds = none :=
  ⟨rfl, rfl⟩

/-- A configuration in which only the pkt chain is set up (all other flags
at their defaults). -/
def pktOnlyCfg : Config :=
  ⟨"0.0.0.0:53", "0.0.0.0:53", "", "", "", "http://pkt.example:8080",
   "", "", "", "", "", "",
   "nodes.lightning.directory", "127.0.0.1", 600, false, 25⟩

/-- A configuration in which only the btc chain is set up. -/
def btcOnlyCfg : Config :=
  ⟨"0.0.0.0:53", "0.0.0.0:53", "btc.example:10009", "", "", "",
   "/home/u/tls.cert", "", "", "/home/u/admin.macaroon", "", "",
   "nodes.lightning.directory", "127.0.0.1", 600, false, 25⟩

/-- A launch environment in which every backing source is unreachable:
all three gRPC inits fail and the pkt poller's first fetch would fail
with a connection error. -/
def allDownEnv : StartupEnv :=
  ⟨Except.error "connection refused", Except.error "connection refused",
   Except.error "connection refused", some "127.0.0.1",
   pktFailingEnv "connection refused"⟩

/-- The all-sources-down launch environment with an unparseable root-ip
flag (`net.ParseIP` returned nil). -/
def nilIPEnv : StartupEnv :=
  setParsedRootIP allDownEnv none

/-- What `main` sets up under `pktOnlyCfg` with a parseable root IP. -/
def pktStarted : Started :=
  ⟨[("pkt.", "pkt")], ["pkt"],
   ⟨[("pkt.", "pkt")], "0.0.0.0:53", "0.0.0.0:53",
    "nodes.lightning.directory", some "127.0.0.1"⟩⟩

/-- What `main` sets up under `pktOnlyCfg` when `net.ParseIP` returns nil. -/
def pktStartedNilIP : Started :=
  ⟨[("pkt.", "pkt")], ["pkt"],
   ⟨[("pkt.", "pkt")], "0.0.0.0:53", "0.0.0.0:53",
    "nodes.lightning.directory", none⟩⟩

/-- The btc guard in propositional form. -/
theorem btcConfigured_iff (cfg : Config) :
    btcConfigured cfg = true ↔
      (cfg.bitcoinNodeHost ≠ "" ∧ cfg.bitcoinTLSPath ≠ "" ∧ cfg.bitcoinMacPath ≠ "") := by
  simp [btcConfigured, and_assoc]

/-- The ltc guard in propositional form. -/
theorem ltcConfigured_iff (cfg : Config) :
    ltcConfigured cfg = true ↔
      (cfg.litecoinNodeHost ≠ "" ∧ cfg.litecoinTLSPath ≠ "" ∧ cfg.litecoinMacPath ≠ "") := by
  simp [ltcConfigured, and_assoc]

/-- The testnet guard in propositional form. -/
theorem testConfigured_iff (cfg : Config) :
    testConfigured cfg = true ↔
      (cfg.testNodeHost ≠ "" ∧ cfg.testTLSPath ≠ "" ∧ cfg.testMacPath ≠ "") := by
  simp [testConfigured, and_assoc]

/-- C3: the spec (and the flag's own help text) says the maximum-records
value is consumed by the core — the DNS server constructed with it; but
`numResults` is parsed and then never used: the `NewDnsServer` call site
receives only the chain-view map, the two listen addresses, the root
domain and the root IP, and the entire startup outcome is independent of
the flag's value. -/
theorem startup_ignores_results_flag (cfg : Config) (env : StartupEnv) (n : Int) :
    mainStartup (setNumResults cfg n) env = mainStartup cfg env ∧
    (setNumResults cfg n).numResults = n := by
  constructor
  · cases cfg; rfl
  · rfl

/-- C4 (amended): startup failure is fatal for the gRPC-backed chains and
for an empty configuration — a btc init failure panics with its message,
ltc/test init failures also prevent serving, and so does having no chain
configured; but the pkt chain gets no launch-time reachability check: the
startup outcome is entirely independent of the pkt source's state, so an
unreachable pkt source does not stop the process from serving. -/
theorem startup_fatality (cfg : Config) (env : StartupEnv) :
    (chainEntries cfg = [] →
        mainStartup cfg env = Except.error "must specify at least one node type") ∧
    (∀ e, btcConfigured cfg = true → env.btcInit = Except.error e →
        mainStartup cfg env = Except.error ("unable to connect to btc lnd: " ++ e)) ∧
    (∀ e, ltcConfigured cfg = true → env.ltcInit = Except.error e →
        startupServes (mainStartup cfg env) = false) ∧
    (∀ e, testConfigured cfg = true → env.testInit = Except.error e →
        startupServes (mainStartup cfg env) = false) ∧
    (∀ f, mainStartup cfg (setPktFirstFetch env f) = mainStartup cfg env) := by
  obtain ⟨bi, li, ti, ip, pf⟩ := env
  refine ⟨?_, ?_, ?_, ?_, fun f => rfl⟩
  · intro hce
    by_cases hb : btcConfigured cfg = true <;>
      by_cases hl : ltcConfigured cfg = true <;>
      by_cases ht : testConfigured cfg = true <;>
      by_cases hp : (cfg.pktNodeHost != "") = true <;>
      simp_all [chainEntries, mainStartup, grpcChainBlock]
  · intro e hb hbe
    simp only at hbe
    subst hbe
    simp [mainStartup, grpcChainBlock, hb]
  · intro e hl hle
    by_cases hb : btcConfigured cfg = true <;> cases bi <;>
      simp_all [mainStartup, grpcChainBlock, startupServes]
  · intro e ht hte
    by_cases hb : btcConfigured cfg = true <;>
      by_cases hl : ltcConfigured cfg = true <;>
      cases bi <;> cases li <;>
      simp_all [mainStartup, grpcChainBlock, startupServes]

/-- C4 witness: with only btc configured and its backing node down, the
process panics with the btc message; with no chain configured at all it
panics with the no-node-type message. -/
theorem startup_fatality_witness :
    mainStartup btcOnlyCfg allDownEnv
      = Except.error "unable to connect to btc lnd: connection refused" ∧
    mainStartup defaultConfig allDownEnv
      = Except.error "must specify at least one node type" :=
  ⟨(startup_fatality btcOnlyCfg allDownEnv).2.1 "connection refused" rfl rfl,
   (startup_fatality defaultConfig allDownEnv).1 rfl⟩

/-- C4 counterexample: the claim extends launch-time fatality to the pkt
chain, but a pkt-only process whose pkt source refuses connections at
launch still reaches `dnsServer.Serve()` — `main` starts `pktPoller`
without any reachability check. -/
theorem pkt_unreachable_still_serves :
    startupServes (mainStartup pktOnlyCfg allDownEnv) = true ∧
    allDownEnv.pktFirstFetch.clientDo = Except.error "connection refused" :=
  ⟨rfl, rfl⟩

/-- C8: on any successful startup the chain-view map has at most four
entries, drawn from exactly the four supported prefix/chain pairs (empty
prefix for bitcoin, "ltc.", "test.", "pkt."); the launched pollers are one
per entry, in map order, each feeding that entry's view, and the views are
pairwise distinct (distinct chain names of fresh `NewNetworkView`s). -/
theorem chain_view_map_shape (cfg : Config) (env : StartupEnv) (s : Started)
    (h : mainStartup cfg env = Except.ok s) :
    s.netViewMap.length ≤ 4 ∧
    (∀ p ∈ s.netViewMap,
        p ∈ [("", "bitcoin"), ("ltc.", "litecoin"), ("test.", "testnet"), ("pkt.", "pkt")]) ∧
    s.pollers = s.netViewMap.map Prod.snd ∧
    (s.netViewMap.map Prod.snd).Nodup := by
  obtain rfl := mainStartup_ok_eq cfg env s h
  by_cases hb : btcConfigured cfg = true <;>
    by_cases hl : ltcConfigured cfg = true <;>
    by_cases ht : testConfigured cfg = true <;>
    by_cases hp : (cfg.pktNodeHost != "") = true <;>
    simp_all [chainEntries, chainPollers]

/-- C8 witness: the pkt-only startup yields the one-entry map with its
single poller. -/
theorem chain_view_map_shape_witness :
    pktStarted.netViewMap.length ≤ 4 ∧
    (∀ p ∈ pktStarted.netViewMap,
        p ∈ [("", "bitcoin"), ("ltc.", "litecoin"), ("test.", "testnet"), ("pkt.", "pkt")]) ∧
    pktStarted.pollers = pktStarted.netViewMap.map Prod.snd ∧
    (pktStarted.netViewMap.map Prod.snd).Nodup :=
  chain_view_map_shape pktOnlyCfg allDownEnv pktStarted rfl

/-- C9: a gRPC chain's view exists if and only if all three of its flags
(host, TLS cert path, macaroon path) are non-empty, the pkt view exists if
and only if its host flag is non-empty, and a chain whose guard fails is
skipped silently — its init outcome is never consulted, so the startup
result is unchanged whatever that outcome would have been. -/
theorem chain_creation_iff (cfg : Config) (env : StartupEnv) :
    ((("", "bitcoin") ∈ chainEntries cfg) ↔
        (cfg.bitcoinNodeHost ≠ "" ∧ cfg.bitcoinTLSPath ≠ "" ∧ cfg.bitcoinMacPath ≠ "")) ∧
    ((("ltc.", "litecoin") ∈ chainEntries cfg) ↔
        (cfg.litecoinNodeHost ≠ "" ∧ cfg.litecoinTLSPath ≠ "" ∧ cfg.litecoinMacPath ≠ "")) ∧
    ((("test.", "testnet") ∈ chainEntries cfg) ↔
        (cfg.testNodeHost ≠ "" ∧ cfg.testTLSPath ≠ "" ∧ cfg.testMacPath ≠ "")) ∧
    ((("pkt.", "pkt") ∈ chainEntries cfg) ↔ cfg.pktNodeHost ≠ "") ∧
    (btcConfigured cfg = false →
        ∀ r, mainStartup cfg (setBtcInit env r) = mainStartup cfg env) ∧
    (ltcConfigured cfg = false →
        ∀ r, mainStartup cfg (setLtcInit env r) = mainStartup cfg env) ∧
    (testConfigured cfg = false →
        ∀ r, mainStartup cfg (setTestInit env r) = mainStartup cfg env) := by
  obtain ⟨bi, li, ti, ip, pf⟩ := env
  refine ⟨?_, ?_, ?_, ?_, ?_, ?_, ?_⟩
  · rw [← btcConfigured_iff]
    by_cases hb : btcConfigured cfg = true <;>
      by_cases hl : ltcConfigured cfg = true <;>
      by_cases ht : testConfigured cfg = true <;>
      by_cases hp : (cfg.pktNodeHost != "") = true <;>
      simp [chainEntries, hb, hl, ht, hp]
  · rw [← ltcConfigured_iff]
    by_cases hb : btcConfigured cfg = true <;>
      by_cases hl : ltcConfigured cfg = true <;>
      by_cases ht : testConfigured cfg = true <;>
      by_cases hp : (cfg.pktNodeHost != "") = true <;>
      simp [chainEntries, hb, hl, ht, hp]
  · rw [← testConfigured_iff]
    by_cases hb : btcConfigured cfg = true <;>
      by_cases hl : ltcConfigured cfg = true <;>
      by_cases ht : testConfigured cfg = true <;>
      by_cases hp : (cfg.pktNodeHost != "") = true <;>
      simp [chainEntries, hb, hl, ht, hp]
  · rw [show (cfg.pktNodeHost ≠ "") = ((cfg.pktNodeHost != "") = true) by simp]
    by_cases hb : btcConfigured cfg = true <;>
      by_cases hl : ltcConfigured cfg = true <;>
      by_cases ht : testConfigured cfg = true <;>
      by_cases hp : (cfg.pktNodeHost != "") = true <;>
      simp [chainEntries, hb, hl, ht, hp]
  · intro hb r
    simp [mainStartup, grpcChainBlock, hb, setBtcInit]
  · intro hl r
    simp [mainStartup, grpcChainBlock, hl, setLtcInit]
  · intro ht r
    simp [mainStartup, grpcChainBlock, ht, setTestInit]

/-- C9 witness: under the pkt-only configuration the pkt view exists, and
the (partially unset) btc chain is skipped with its init outcome ignored. -/
theorem chain_creation_iff_witness :
    (("pkt.", "pkt") ∈ chainEntries pktOnlyCfg) ∧
    mainStartup pktOnlyCfg (setBtcInit allDownEnv (Except.ok ()))
      = mainStartup pktOnlyCfg allDownEnv := by
  have h := chain_creation_iff pktOnlyCfg allDownEnv
  exact ⟨(h.2.2.2.1).mpr (by decide), h.2.2.2.2.1 rfl (Except.ok ())⟩

/-- C10: whether `net.ParseIP` returned nil never affects whether the
process serves, and the DNS server is constructed with exactly the parse
result — nil included — as its glue-record IP. -/
theorem nil_root_ip_tolerated (cfg : Config) (env : StartupEnv) :
    (∀ s, mainStartup cfg env = Except.ok s → s.dnsArgs.rootIP = env.parsedRootIP) ∧
    (∀ ip, startupServes (mainStartup cfg (setParsedRootIP env ip))
        = startupServes (mainStartup cfg env)) := by
  constructor
  · intro s h
    obtain rfl := mainStartup_ok_eq cfg env s h
    rfl
  · intro ip
    obtain ⟨bi, li, ti, ip0, pf⟩ := env
    by_cases hb : btcConfigured cfg = true <;>
      by_cases hl : ltcConfigured cfg = true <;>
      by_cases ht : testConfigured cfg = true <;>
      by_cases hp : (cfg.pktNodeHost != "") = true <;>
      cases bi <;> cases li <;> cases ti <;>
      simp_all [mainStartup, grpcChainBlock, startupServes, setParsedRootIP]

/-- C10 witness: with root-ip unparseable (ParseIP nil), the pkt-only
process still serves and its DNS server carries a nil root IP. -/
theorem nil_root_ip_witness :
    pktStartedNilIP.dnsArgs.rootIP = none ∧
    startupServes (mainStartup pktOnlyCfg nilIPEnv) = true := by
  have h1 := (nil_root_ip_tolerated pktOnlyCfg nilIPEnv).1 pktStartedNilIP rfl
  have h2 := (nil_root_ip_tolerated pktOnlyCfg allDownEnv).2 none
  exact ⟨h1, h2.trans rfl⟩

end Lseed
